import Mathlib

/-!
Verification development for the PROJECT-VICTUS browser client
(`src/static/script.js`).

The script is a single `DOMContentLoaded` handler that owns:
  * a per-browser session token read from / written to `localStorage`;
  * a transcript of chat messages (`addMessageToChat`);
  * a shared busy indicator (`loadingIndicator.style.display`, the string
    `"flex"` when visible and `"none"` when hidden);
  * microphone recording state (`mediaRecorder`, `audioChunks`, `isRecording`);
  * four remote operations (`/api/chat`, `/api/transcribe`, `/api/synthesize`,
    `/api/upload`), each an async handler that sets the indicator, awaits a
    fetch, updates the transcript, and clears the indicator in a `finally`.

The embedding is a small-step event semantics.  JavaScript on a page is
single-threaded and cooperative: an async handler runs atomically from one
`await` (or its start) to the next.  Each such synchronous segment is one
step of the machine below.  A pending `fetch` / permission request / queued
`onstop` callback is recorded in a multiset of outstanding asynchronous
tasks (`PendingOp`); a settle event consumes one and runs the handler's
continuation.  The arrival of a response and the parsing of its body
(`await response.json()`) are merged into a single settling event — the
handlers write no state between those two suspension points, so every
observable interleaving is preserved.

Presentation-only effects (CSS classes, textarea height, scrolling, icons)
have no bearing on any claim and are omitted.  Alerts and started audio
playback are recorded as lists so that the user-notice / fire-and-forget
behaviour of `speakText` is observable.

One crucial piece of JavaScript semantics, used below: `dispatchEvent`
invokes event listeners synchronously.  An async listener runs up to its
first `await` and its returned promise is discarded, so when
`sendAudioForTranscription` dispatches the synthetic `submit` event
(script.js line 79), the chat handler runs through its synchronous prefix
(append user message, set the indicator, start the chat fetch) and suspends,
after which `sendAudioForTranscription`'s `finally` (line 84) hides the
indicator — all before the chat fetch can possibly settle.
-/

namespace Victus

/-- Message sender: the `'user'` / `'ai'` strings of `addMessageToChat`. -/
inductive Sender
  | user
  | ai
deriving DecidableEq

/-- One transcript entry, as produced by `addMessageToChat(message, sender)`
(script.js lines 129-158): the rendered text and the sender class. -/
structure Message where
  text : String
  sender : Sender
deriving DecidableEq

/-- An outstanding asynchronous task:
  * `permission` — a `getUserMedia` promise awaited by `startRecording`;
  * `onstopEvent` — a queued `mediaRecorder.onstop` callback
    (`sendAudioForTranscription`);
  * `transcribe` / `chat` / `synth` / `upload` — an in-flight fetch to the
    corresponding endpoint (for upload, the selected file's name travels with
    the task because the success message interpolates it). -/
inductive PendingOp
  | permission
  | onstopEvent
  | transcribe
  | chat
  | synth
  | upload (fileName : String)
deriving DecidableEq

/-- The mutable client state of script.js.

`loadingDisplay` is `loadingIndicator.style.display`; `recorders` holds one
entry per `MediaRecorder` ever constructed, `true` while its state is not
`'inactive'`; `current` is the index the `mediaRecorder` variable points at;
`fileValue` models the file input's selection (`fileUpload.value = ''` clears
it); `alerts` and `playedAudio` record `alert(...)` calls and
`new Audio(url).play()` starts; `mediaSupported` is the environment fact
tested on script.js line 33. -/
structure ClientState where
  sessionId : String
  transcript : List Message
  loadingDisplay : String
  messageInput : String
  isRecording : Bool
  recorders : List Bool
  current : Option Nat
  audioChunks : List Nat
  fileValue : Option String
  alerts : List String
  playedAudio : List String
  mediaSupported : Bool
deriving DecidableEq

/-- A configuration: the client state plus the multiset of outstanding
asynchronous tasks. -/
structure Conf where
  st : ClientState
  pending : List PendingOp
deriving DecidableEq

/-- JavaScript `a || b` on a possibly-absent string field: `undefined` and
`""` are both falsy, so `errorData.detail || 'An error occurred'` yields the
default in exactly these cases. -/
def jsOr (o : Option String) (dflt : String) : String :=
  match o with
  | some s => if s = "" then dflt else s
  | none => dflt

/-- `addMessageToChat(text, sender)` (script.js lines 129-158): appends one
message to the chat window.  The DOM construction is presentation; the
observable effect is the appended transcript entry.  (The speaker button is
attached exactly to `'ai'` messages; this reappears as the guard of the
`clickSpeaker` event below.) -/
def addMessageToChat (st : ClientState) (text : String) (sender : Sender) : ClientState :=
  { st with transcript := st.transcript ++ [⟨text, sender⟩] }

/-- The text of the upload success message (script.js line 202). -/
def uploadSuccessText (name : String) : String :=
  "Successfully uploaded and indexed \"" ++ name ++ "\". You can now ask questions about it."

/-- The greeting appended on a brand-new session (script.js line 227). -/
def greetingText : String :=
  "Hello! I\x27m VICTUS, your personal AI assistant. How can I help you today?"

/-- White-space test of JavaScript `String.prototype.trim` (the characters
it strips, restricted to the code points that can actually occur here). -/
def isJsSpace (ch : Char) : Bool :=
  ch = ' ' || ch = '\t' || ch = '\n' || ch = '\r' || ch = '\x0b' || ch = '\x0c'

/-- JavaScript `s.trim()`: strip leading and trailing white space. -/
def jsTrim (s : String) : String :=
  ⟨((s.data.dropWhile isJsSpace).reverse.dropWhile isJsSpace).reverse⟩

/-- Synchronous prefix of the `chatForm` submit handler (script.js lines
96-111), up to its first `await`: trim the input; on empty input return
without doing anything; otherwise append the user message, clear the input,
show the indicator, and start the chat fetch.  The returned `Bool` reports
whether a fetch was issued. -/
def chatSubmitStart (st : ClientState) : ClientState × Bool :=
  let message := jsTrim st.messageInput
  if message = "" then (st, false)
  else
    ({ st with
        transcript := st.transcript ++ [⟨message, Sender.user⟩]
        messageInput := ""
        loadingDisplay := "flex" }, true)

/-- Outcome of the chat fetch, as discriminated by the handler:
  * `success r` — `response.ok` with body `{response: r}`;
  * `httpError d` — non-ok status whose JSON body has `detail` field `d`
    (the handler throws `new Error(errorData.detail || 'An error occurred')`);
  * `networkError m` — the fetch itself (or a body parse) rejected with an
    error whose `message` is `m`. -/
inductive ChatOutcome
  | success (response : String)
  | httpError (detail : Option String)
  | networkError (msg : String)
deriving DecidableEq

/-- Continuation of the submit handler after the chat fetch settles
(script.js lines 113-126): on success append the assistant message; on any
failure append `Error: ${error.message}`; the `finally` hides the
indicator. -/
def chatSettle (st : ClientState) : ChatOutcome → ClientState
  | .success r =>
      { addMessageToChat st r .ai with loadingDisplay := "none" }
  | .httpError d =>
      { addMessageToChat st ("Error: " ++ jsOr d "An error occurred") .ai with
          loadingDisplay := "none" }
  | .networkError m =>
      { addMessageToChat st ("Error: " ++ m) .ai with loadingDisplay := "none" }

/-- Outcome of the transcribe fetch: the handler (script.js lines 71-85)
collapses every failure — non-ok status (`throw new Error('Transcription
failed')`), fetch rejection, body-parse rejection — into one catch branch
that appends a fixed error message, so only success carries data. -/
inductive TranscribeOutcome
  | success (transcription : String)
  | failure
deriving DecidableEq

/-- Continuation of `sendAudioForTranscription` after its fetch settles
(script.js lines 76-85).  On success the handler writes the transcription
into the input box and synchronously dispatches a `submit` event: the chat
handler's synchronous prefix (`chatSubmitStart`) runs to completion inside
the dispatch, and only then does the transcribe handler's `finally` hide the
indicator.  The returned `Bool` reports whether the chained chat fetch was
issued. -/
def transcribeSettle (st : ClientState) : TranscribeOutcome → ClientState × Bool
  | .success t =>
      let p := chatSubmitStart { st with messageInput := t }
      ({ p.1 with loadingDisplay := "none" }, p.2)
  | .failure =>
      ({ addMessageToChat st "Error transcribing audio." .ai with
          loadingDisplay := "none" }, false)

/-- Outcome of the synthesize fetch: success carries `{audio_url}`; every
failure (non-ok, rejection, parse error) lands in the same catch branch
(script.js lines 174-176). -/
inductive SynthOutcome
  | success (audioUrl : String)
  | failure
deriving DecidableEq

/-- Continuation of `speakText` after its fetch settles (script.js lines
169-179): on success, construct an `Audio` and start playback — the `play()`
promise is not awaited, so the `finally` hides the indicator as soon as the
network round trip is done; on failure, `alert('Could not play audio.')` and
no transcript change. -/
def synthSettle (st : ClientState) : SynthOutcome → ClientState
  | .success url =>
      { st with playedAudio := st.playedAudio ++ [url], loadingDisplay := "none" }
  | .failure =>
      { st with alerts := st.alerts ++ ["Could not play audio."]
                loadingDisplay := "none" }

/-- Outcome of the upload fetch: the handler parses the body before checking
`response.ok` (script.js line 199), so `networkError` also covers a body
that fails to parse; `httpError d` is a non-ok status with `detail` field
`d` (`throw new Error(data.detail || 'Upload failed')`). -/
inductive UploadOutcome
  | okIndexed
  | httpError (detail : Option String)
  | networkError (msg : String)
deriving DecidableEq

/-- Continuation of the `fileUpload` change handler after its fetch settles
(script.js lines 199-213): success appends the confirmation naming the file,
failure appends `Error: ${error.message}`; the `finally` hides the indicator
and clears the file input on every path. -/
def uploadSettle (st : ClientState) (name : String) : UploadOutcome → ClientState
  | .okIndexed =>
      { addMessageToChat st (uploadSuccessText name) .ai with
          loadingDisplay := "none", fileValue := none }
  | .httpError d =>
      { addMessageToChat st ("Error: " ++ jsOr d "Upload failed") .ai with
          loadingDisplay := "none", fileValue := none }
  | .networkError m =>
      { addMessageToChat st ("Error: " ++ m) .ai with
          loadingDisplay := "none", fileValue := none }

/-- Synchronous prefix of `startRecording` (script.js lines 32-38): if the
platform lacks `mediaDevices`/`getUserMedia`, alert and stop; otherwise
request the capture device (the `getUserMedia` await).  The returned `Bool`
reports whether a permission request is now outstanding.  Note there is no
guard on `isRecording` or on an existing recorder. -/
def startRecordingBegin (st : ClientState) : ClientState × Bool :=
  if st.mediaSupported then (st, true)
  else
    ({ st with alerts := st.alerts ++ ["Your browser does not support audio recording."] },
     false)

/-- `stopRecording` (script.js lines 53-59): entirely guarded by
`mediaRecorder && mediaRecorder.state !== 'inactive'`.  When the guard holds
it stops the current recorder (which queues its `onstop` callback — the
returned `Bool`) and clears `isRecording`; otherwise it is a complete no-op. -/
def stopRecordingFn (st : ClientState) : ClientState × Bool :=
  match st.current with
  | some i =>
      if st.recorders.getD i false then
        ({ st with recorders := st.recorders.set i false, isRecording := false }, true)
      else (st, false)
  | none => (st, false)

/-- Synchronous prefix of `sendAudioForTranscription` (script.js lines
61-70): with zero collected chunks it returns immediately; otherwise it
shows the indicator, flushes the chunks into a blob (clearing the shared
`audioChunks` array) and starts the transcribe fetch.  The returned `Bool`
reports whether a fetch was issued. -/
def sendAudioStart (st : ClientState) : ClientState × Bool :=
  if st.audioChunks.isEmpty then (st, false)
  else ({ st with loadingDisplay := "flex", audioChunks := [] }, true)

/-- First-match extraction from the outstanding-task list: the settled task
is removed, everything else keeps its order. -/
def takeFirst (p : PendingOp → Bool) : List PendingOp → Option (PendingOp × List PendingOp)
  | [] => none
  | x :: xs =>
      if p x then some (x, xs)
      else
        match takeFirst p xs with
        | some (y, ys) => some (y, x :: ys)
        | none => none

/-- Predicate for an outstanding permission request. -/
def isPermission : PendingOp → Bool
  | .permission => true
  | _ => false

/-- Predicate for a queued `onstop` callback. -/
def isOnstop : PendingOp → Bool
  | .onstopEvent => true
  | _ => false

/-- Predicate for an in-flight transcribe fetch. -/
def isTranscribePending : PendingOp → Bool
  | .transcribe => true
  | _ => false

/-- Predicate for an in-flight chat fetch. -/
def isChatPending : PendingOp → Bool
  | .chat => true
  | _ => false

/-- Predicate for an in-flight synthesize fetch. -/
def isSynthPending : PendingOp → Bool
  | .synth => true
  | _ => false

/-- Predicate for an in-flight upload fetch. -/
def isUploadPending : PendingOp → Bool
  | .upload _ => true
  | _ => false

/-- The events the machine can process.  User gestures (`micClick`,
`typeInput`, `submitForm`, `clickSpeaker`, `fileChange`) start handler
segments; device/network events (`grantPermission`, `denyPermission`,
`dataAvailable`, `fireOnstop`, `settle*`) resume suspended ones. -/
inductive Event
  | micClick
  | grantPermission
  | denyPermission
  | dataAvailable (chunk : Nat)
  | fireOnstop
  | settleTranscribe (o : TranscribeOutcome)
  | typeInput (s : String)
  | submitForm
  | settleChat (o : ChatOutcome)
  | clickSpeaker (text : String)
  | settleSynth (o : SynthOutcome)
  | fileChange (f : Option String)
  | settleUpload (o : UploadOutcome)
deriving DecidableEq

/-- One step of the machine: `none` when the event is not enabled (no
matching outstanding task, no recorder to produce data, no such assistant
message to click).  Each case is the corresponding synchronous segment of
script.js. -/
def step (c : Conf) : Event → Option Conf
  | .micClick =>
      -- script.js lines 24-30: toggle on `isRecording`.
      if c.st.isRecording then
        some ⟨(stopRecordingFn c.st).1,
              if (stopRecordingFn c.st).2 then c.pending ++ [.onstopEvent] else c.pending⟩
      else
        some ⟨(startRecordingBegin c.st).1,
              if (startRecordingBegin c.st).2 then c.pending ++ [.permission] else c.pending⟩
  | .grantPermission =>
      -- script.js lines 38-46: the awaited `getUserMedia` resolves; a new
      -- recorder is constructed and started, `mediaRecorder` now points at it.
      match takeFirst isPermission c.pending with
      | some (_, rest) =>
          some ⟨{ c.st with recorders := c.st.recorders ++ [true]
                            current := some c.st.recorders.length
                            isRecording := true }, rest⟩
      | none => none
  | .denyPermission =>
      -- script.js lines 47-50: the awaited `getUserMedia` rejects.
      match takeFirst isPermission c.pending with
      | some (_, rest) =>
          some ⟨{ c.st with alerts :=
                    c.st.alerts ++ ["Could not access microphone. Please grant permission."] },
                rest⟩
      | none => none
  | .dataAvailable chunk =>
      -- script.js lines 40-42: a constructed recorder delivers a fragment
      -- into the shared `audioChunks` array.
      if c.st.recorders.isEmpty then none
      else some ⟨{ c.st with audioChunks := c.st.audioChunks ++ [chunk] }, c.pending⟩
  | .fireOnstop =>
      match takeFirst isOnstop c.pending with
      | some (_, rest) =>
          some ⟨(sendAudioStart c.st).1,
                if (sendAudioStart c.st).2 then rest ++ [.transcribe] else rest⟩
      | none => none
  | .settleTranscribe o =>
      match takeFirst isTranscribePending c.pending with
      | some (_, rest) =>
          some ⟨(transcribeSettle c.st o).1,
                if (transcribeSettle c.st o).2 then rest ++ [.chat] else rest⟩
      | none => none
  | .typeInput s =>
      -- script.js lines 217-220: the user edits the textarea (the handler
      -- itself only resizes it).
      some ⟨{ c.st with messageInput := s }, c.pending⟩
  | .submitForm =>
      -- Explicit submit, or Enter-without-Shift (lines 88-93) which
      -- dispatches the same submit event.
      some ⟨(chatSubmitStart c.st).1,
            if (chatSubmitStart c.st).2 then c.pending ++ [.chat] else c.pending⟩
  | .settleChat o =>
      match takeFirst isChatPending c.pending with
      | some (_, rest) => some ⟨chatSettle c.st o, rest⟩
      | none => none
  | .clickSpeaker text =>
      -- script.js lines 145-150: a speaker button exists exactly on
      -- assistant messages, and clicking it runs `speakText(message)` whose
      -- synchronous prefix shows the indicator and starts the fetch.
      if (Message.mk text .ai) ∈ c.st.transcript then
        some ⟨{ c.st with loadingDisplay := "flex" }, c.pending ++ [.synth]⟩
      else none
  | .settleSynth o =>
      match takeFirst isSynthPending c.pending with
      | some (_, rest) => some ⟨synthSettle c.st o, rest⟩
      | none => none
  | .fileChange f =>
      -- script.js lines 185-197: the browser sets the input's selection,
      -- then the handler returns at once when no file is selected, and
      -- otherwise shows the indicator and starts the upload fetch.
      match f with
      | none => some ⟨{ c.st with fileValue := none }, c.pending⟩
      | some name =>
          some ⟨{ c.st with fileValue := some name, loadingDisplay := "flex" },
                c.pending ++ [.upload name]⟩
  | .settleUpload o =>
      match takeFirst isUploadPending c.pending with
      | some (.upload name, rest) => some ⟨uploadSettle c.st name o, rest⟩
      | _ => none

/-- Run a list of events; `none` as soon as one is not enabled. -/
def runEvents : Conf → List Event → Option Conf
  | c, [] => some c
  | c, e :: es =>
      match step c e with
      | some c' => runEvents c' es
      | none => none

/-- The client state right after the `DOMContentLoaded` handler finishes,
on the storage-success path (script.js lines 10-17 and 226-228): the session
token is the stored one, or freshly generated (with the greeting appended)
when the stored value is absent or empty.  The busy indicator's initial
visibility is not set by script.js; modelled from the spec: the indicator
starts hidden (the page markup is not part of the sources). -/
def pageLoadState (stored : Option String) (genToken : String) (ms : Bool) : ClientState :=
  { sessionId := if stored.getD "" = "" then genToken else stored.getD ""
    transcript := if stored.getD "" = "" then [⟨greetingText, Sender.ai⟩] else []
    loadingDisplay := "none"
    messageInput := ""
    isRecording := false
    recorders := []
    current := none
    audioChunks := []
    fileValue := none
    alerts := []
    playedAudio := []
    mediaSupported := ms }

/-- Initial configuration: freshly loaded page, no outstanding tasks. -/
def initConf (stored : Option String) (genToken : String) (ms : Bool) : Conf :=
  ⟨pageLoadState stored genToken ms, []⟩

/-- One enabled step, event existentially hidden. -/
def StepRel (c c' : Conf) : Prop := ∃ e, step c e = some c'

/-- Reachability from a configuration. -/
def Reachable (c₀ c : Conf) : Prop := Relation.ReflTransGen StepRel c₀ c

/-- The session-identity initialization (script.js lines 10-17), with the
storage operations' outcomes made explicit.  `localStorage.getItem` /
`setItem` can throw (storage denied, quota); script.js wraps neither in a
try/catch, so a storage exception propagates out of the `DOMContentLoaded`
handler (modelled as `Except.error`) and the rest of the script never runs.
`getItem` returning `null` and a stored empty string are both falsy for the
`if (!sessionId)` test, hence the `getD ""` collapse.  On success, returns
the token together with the `isNewSession` flag. -/
def sessionInit (getResult : Except String (Option String)) (genToken : String)
    (setResult : Except String Unit) : Except String (String × Bool) :=
  match getResult with
  | .error e => .error e
  | .ok stored =>
      if stored.getD "" = "" then
        match setResult with
        | .error e => .error e
        | .ok _ => .ok (genToken, true)
      else .ok (stored.getD "", false)

/-- A settling event: one of the four remote operations finishing with some
outcome. -/
def isSettle : Event → Bool
  | .settleTranscribe _ => true
  | .settleChat _ => true
  | .settleSynth _ => true
  | .settleUpload _ => true
  | _ => false

/-- Which outstanding tasks are tracked network operations (the four remote
calls): exactly those whose handler showed the indicator when it started
them. -/
def isNet : PendingOp → Bool
  | .transcribe => true
  | .chat => true
  | .synth => true
  | .upload _ => true
  | .permission => false
  | .onstopEvent => false

/-- No tracked network operation is outstanding. -/
def NetIdle (l : List PendingOp) : Bool := l.all fun p => !isNet p

/-- The busy-gate invariant: whenever no network operation is outstanding,
the indicator is hidden. -/
def BusyInv (c : Conf) : Prop := NetIdle c.pending = true → c.st.loadingDisplay = "none"

/-! ## Concrete configurations used by witnesses and counterexamples -/

/-- State right after loading the page in a returning session (stored token
`"sess"`), on a platform with recording support. -/
def baseState : ClientState := pageLoadState (some "sess") "gen" true

/-- Initial configuration of that page load. -/
def conf0 : Conf := initConf (some "sess") "gen" true

/-- A complete recording interaction: click to start, permission granted,
click to stop, the recorder flushes one fragment, the queued `onstop`
callback runs (starting the transcribe fetch). -/
def recordTrace : List Event :=
  [.micClick, .grantPermission, .micClick, .dataAvailable 0, .fireOnstop]

/-- The configuration `recordTrace` reaches: indicator shown, one stopped
recorder, a transcribe fetch in flight. -/
def transcribeWaitConf : Conf :=
  ⟨{ baseState with loadingDisplay := "flex", recorders := [false], current := some 0 },
   [.transcribe]⟩

/-- The configuration right after the transcribe fetch settles with
transcription `"Hello"`: the chained chat fetch is outstanding, the user
message is in the transcript — and the indicator is already hidden. -/
def chainedChatConf : Conf :=
  ⟨{ baseState with
      transcript := [⟨"Hello", .user⟩]
      recorders := [false]
      current := some 0
      loadingDisplay := "none" },
   [.chat]⟩

/-- The configuration reached by clicking the microphone twice while the
permission prompt is still open and then granting both requests: two
recorders, both capturing. -/
def twoRecorderConf : Conf :=
  ⟨{ baseState with recorders := [true, true], current := some 1, isRecording := true }, []⟩

/-- A page with `"Hey"` typed into the input box. -/
def witnessChatConf : Conf := ⟨{ baseState with messageInput := "Hey" }, []⟩

/-! ## The claims under dispute, formalized as stated -/

/-- Claim C1 as stated: after a successful transcribe settle whose
transcription is non-empty (so the synthetic submission chained a chat
fetch), the shared busy signal is still set — it "never becomes false
between the transcribe operation settling and the chained chat operation
settling", so in particular it is set immediately after the transcribe
settles. -/
def busyReflectsChainClaim : Prop :=
  ∀ (stored : Option String) (g : String) (ms : Bool) (c : Conf) (t : String) (c' : Conf),
    Reachable (initConf stored g ms) c →
    jsTrim t ≠ "" →
    step c (Event.settleTranscribe (TranscribeOutcome.success t)) = some c' →
    c'.st.loadingDisplay = "flex"

/-- Claim C3 as stated: the controller itself guards against reentrant
start, so no reachable configuration ever has two simultaneously capturing
recorders; and `stopRecording` from the idle state is a no-op. -/
def reentrantStartGuardClaim : Prop :=
  (∀ (stored : Option String) (g : String) (ms : Bool) (c : Conf),
      Reachable (initConf stored g ms) c → c.st.recorders.count true ≤ 1) ∧
  (∀ st : ClientState, st.current = none → stopRecordingFn st = (st, false))

/-- Claim C4 as stated: `getOrCreate` has no error conditions — whatever the
storage operations do, initialization yields a session token (degrading to
an ephemeral in-memory one on storage failure) rather than throwing. -/
def storageFailureDegradesClaim : Prop :=
  ∀ (getR : Except String (Option String)) (g : String) (setR : Except String Unit),
    ∃ (tok : String) (isNew : Bool), sessionInit getR g setR = .ok (tok, isNew)

/-! ## Helper lemmas -/

theorem takeFirst_spec {p : PendingOp → Bool} :
    ∀ {l x rest}, takeFirst p l = some (x, rest) →
      p x = true ∧ ∀ q : PendingOp → Bool, l.all q = (q x && rest.all q) := by
  intro l
  induction l with
  | nil => intro x rest h; simp [takeFirst] at h
  | cons a t ih =>
      intro x rest h
      by_cases hp : p a = true
      · rw [takeFirst, if_pos hp] at h
        injection h with h'
        injection h' with hx hr
        subst hx; subst hr
        exact ⟨hp, fun q => by simp [List.all_cons]⟩
      · rw [takeFirst, if_neg hp] at h
        cases ht : takeFirst p t with
        | none => rw [ht] at h; exact Option.noConfusion h
        | some pr =>
            obtain ⟨y, ys⟩ := pr
            rw [ht] at h
            injection h with h'
            injection h' with hx hr
            subst hx; subst hr
            obtain ⟨hpy, hall⟩ := ih ht
            refine ⟨hpy, fun q => ?_⟩
            rw [List.all_cons, List.all_cons, hall q, Bool.and_left_comm]

theorem stopRecordingFn_loading (st : ClientState) :
    (stopRecordingFn st).1.loadingDisplay = st.loadingDisplay := by
  unfold stopRecordingFn
  cases st.current with
  | none => rfl
  | some i =>
      dsimp only
      split <;> rfl

theorem startRecordingBegin_loading (st : ClientState) :
    (startRecordingBegin st).1.loadingDisplay = st.loadingDisplay := by
  unfold startRecordingBegin
  split <;> rfl

theorem chatSubmitStart_not_issued {st : ClientState}
    (h : (chatSubmitStart st).2 = false) : (chatSubmitStart st).1 = st := by
  by_cases he : jsTrim st.messageInput = ""
  · simp [chatSubmitStart, he]
  · simp [chatSubmitStart, he] at h

theorem sendAudioStart_not_issued {st : ClientState}
    (h : (sendAudioStart st).2 = false) : (sendAudioStart st).1 = st := by
  by_cases he : st.audioChunks.isEmpty = true
  · simp [sendAudioStart, he]
  · simp [sendAudioStart, he] at h

theorem chatSettle_loading (st : ClientState) (o : ChatOutcome) :
    (chatSettle st o).loadingDisplay = "none" := by
  cases o <;> rfl

theorem transcribeSettle_loading (st : ClientState) (o : TranscribeOutcome) :
    (transcribeSettle st o).1.loadingDisplay = "none" := by
  cases o <;> rfl

theorem synthSettle_loading (st : ClientState) (o : SynthOutcome) :
    (synthSettle st o).loadingDisplay = "none" := by
  cases o <;> rfl

theorem uploadSettle_loading (st : ClientState) (name : String) (o : UploadOutcome) :
    (uploadSettle st name o).loadingDisplay = "none" := by
  cases o <;> rfl

theorem isNet_eq_false_of_isPermission {x : PendingOp} (h : isPermission x = true) :
    isNet x = false := by
  cases x <;> simp_all [isPermission, isNet]

theorem isNet_eq_false_of_isOnstop {x : PendingOp} (h : isOnstop x = true) :
    isNet x = false := by
  cases x <;> simp_all [isOnstop, isNet]

theorem busyInv_step {c c' : Conf} (e : Event) (h : BusyInv c)
    (hs : step c e = some c') : BusyInv c' := by
  cases e with
  | micClick =>
      simp only [step] at hs
      split at hs
      · injection hs with hs'
        subst hs'
        intro hni
        rw [stopRecordingFn_loading]
        apply h
        split at hni
        · simpa [NetIdle, isNet] using hni
        · exact hni
      · injection hs with hs'
        subst hs'
        intro hni
        rw [startRecordingBegin_loading]
        apply h
        split at hni
        · simpa [NetIdle, isNet] using hni
        · exact hni
  | grantPermission =>
      simp only [step] at hs
      split at hs
      next x rest heq =>
        injection hs with hs'
        subst hs'
        intro hni
        have hspec := takeFirst_spec heq
        apply h
        simp only [NetIdle] at hni ⊢
        rw [hspec.2 (fun p => !isNet p), isNet_eq_false_of_isPermission hspec.1]
        simpa using hni
      next => exact Option.noConfusion hs
  | denyPermission =>
      simp only [step] at hs
      split at hs
      next x rest heq =>
        injection hs with hs'
        subst hs'
        intro hni
        have hspec := takeFirst_spec heq
        apply h
        simp only [NetIdle] at hni ⊢
        rw [hspec.2 (fun p => !isNet p), isNet_eq_false_of_isPermission hspec.1]
        simpa using hni
      next => exact Option.noConfusion hs
  | dataAvailable chunk =>
      simp only [step] at hs
      split at hs
      · exact Option.noConfusion hs
      · injection hs with hs'
        subst hs'
        intro hni
        exact h hni
  | fireOnstop =>
      simp only [step] at hs
      split at hs
      next x rest heq =>
        injection hs with hs'
        subst hs'
        intro hni
        have hspec := takeFirst_spec heq
        split at hni
        · simp [NetIdle, isNet] at hni
        next hb =>
          rw [sendAudioStart_not_issued (Bool.eq_false_iff.mpr hb)]
          apply h
          simp only [NetIdle] at hni ⊢
          rw [hspec.2 (fun p => !isNet p), isNet_eq_false_of_isOnstop hspec.1]
          simpa using hni
      next => exact Option.noConfusion hs
  | settleTranscribe o =>
      simp only [step] at hs
      split at hs
      next x rest heq =>
        injection hs with hs'
        subst hs'
        intro _
        exact transcribeSettle_loading _ _
      next => exact Option.noConfusion hs
  | typeInput s =>
      simp only [step] at hs
      injection hs with hs'
      subst hs'
      intro hni
      exact h hni
  | submitForm =>
      simp only [step] at hs
      injection hs with hs'
      subst hs'
      intro hni
      split at hni
      · simp [NetIdle, isNet] at hni
      next hb =>
        rw [chatSubmitStart_not_issued (Bool.eq_false_iff.mpr hb)]
        exact h hni
  | settleChat o =>
      simp only [step] at hs
      split at hs
      next x rest heq =>
        injection hs with hs'
        subst hs'
        intro _
        exact chatSettle_loading _ _
      next => exact Option.noConfusion hs
  | clickSpeaker text =>
      simp only [step] at hs
      split at hs
      · injection hs with hs'
        subst hs'
        intro hni
        simp [NetIdle, isNet] at hni
      · exact Option.noConfusion hs
  | settleSynth o =>
      simp only [step] at hs
      split at hs
      next x rest heq =>
        injection hs with hs'
        subst hs'
        intro _
        exact synthSettle_loading _ _
      next => exact Option.noConfusion hs
  | fileChange f =>
      simp only [step] at hs
      cases f with
      | none =>
          injection hs with hs'
          subst hs'
          intro hni
          exact h hni
      | some name =>
          injection hs with hs'
          subst hs'
          intro hni
          simp [NetIdle, isNet] at hni
  | settleUpload o =>
      simp only [step] at hs
      split at hs
      next name rest heq =>
        injection hs with hs'
        subst hs'
        intro _
        exact uploadSettle_loading _ _ _
      next => exact Option.noConfusion hs

theorem busyInv_reachable {c₀ c : Conf} (h₀ : BusyInv c₀) (h : Reachable c₀ c) :
    BusyInv c := by
  induction h with
  | refl => exact h₀
  | tail _ hstep ih =>
      obtain ⟨e, he⟩ := hstep
      exact busyInv_step e ih he

theorem reachable_runEvents :
    ∀ (es : List Event) (c c' : Conf), runEvents c es = some c' → Reachable c c' := by
  intro es
  induction es with
  | nil =>
      intro c c' h
      simp only [runEvents] at h
      injection h with h'
      subst h'
      exact Relation.ReflTransGen.refl
  | cons e t ih =>
      intro c c' h
      simp only [runEvents] at h
      cases hc : step c e with
      | none => rw [hc] at h; exact Option.noConfusion h
      | some c₁ =>
          rw [hc] at h
          exact Relation.ReflTransGen.head ⟨e, hc⟩ (ih c₁ c' h)

theorem settle_resets_loading {c c' : Conf} {e : Event} (hse : isSettle e = true)
    (hs : step c e = some c') : c'.st.loadingDisplay = "none" := by
  cases e
  case settleTranscribe o =>
    simp only [step] at hs
    split at hs
    next x rest heq =>
      injection hs with hs'
      subst hs'
      exact transcribeSettle_loading _ _
    next => exact Option.noConfusion hs
  case settleChat o =>
    simp only [step] at hs
    split at hs
    next x rest heq =>
      injection hs with hs'
      subst hs'
      exact chatSettle_loading _ _
    next => exact Option.noConfusion hs
  case settleSynth o =>
    simp only [step] at hs
    split at hs
    next x rest heq =>
      injection hs with hs'
      subst hs'
      exact synthSettle_loading _ _
    next => exact Option.noConfusion hs
  case settleUpload o =>
    simp only [step] at hs
    split at hs
    next name rest heq =>
      injection hs with hs'
      subst hs'
      exact uploadSettle_loading _ _ _
    next => exact Option.noConfusion hs
  all_goals simp [isSettle] at hse

/-! ## Claim theorems -/

/-- Claim C2: for every one of the four remote operations (chat, transcribe,
synthesize, upload) and every outcome, the shared busy signal is reset to
`"none"` when the operation settles; the signal is hidden and no task is
outstanding before the first operation starts; and in every reachable
configuration with no outstanding operations — in particular after the last
of any set of overlapping operations settles — the signal is hidden.
(The initial indicator visibility is modelled from the spec, since the page
markup is not among the sources.) -/
theorem busy_gate_contract :
    (∀ (stored : Option String) (g : String) (ms : Bool),
        (initConf stored g ms).st.loadingDisplay = "none" ∧
        (initConf stored g ms).pending = []) ∧
    (∀ (c c' : Conf) (e : Event), isSettle e = true → step c e = some c' →
        c'.st.loadingDisplay = "none") ∧
    (∀ (stored : Option String) (g : String) (ms : Bool) (c : Conf),
        Reachable (initConf stored g ms) c → c.pending = [] →
        c.st.loadingDisplay = "none") := by
  refine ⟨fun stored g ms => ⟨rfl, rfl⟩,
          fun c c' e hse hs => settle_resets_loading hse hs,
          fun stored g ms c hr hp => ?_⟩
  have h₀ : BusyInv (initConf stored g ms) := fun _ => rfl
  apply busyInv_reachable h₀ hr
  rw [hp]
  rfl

/-- Witness for C2: on a concrete page load, the indicator starts hidden
with nothing outstanding; a concrete chat settle hides it; and it is hidden
in the (trivially reachable) initial configuration. -/
theorem busy_gate_contract_witness :
    ((initConf (some "sess") "gen" true).st.loadingDisplay = "none" ∧
      (initConf (some "sess") "gen" true).pending = []) ∧
    (⟨chatSettle baseState (ChatOutcome.success "Hi"), []⟩ : Conf).st.loadingDisplay = "none" ∧
    conf0.st.loadingDisplay = "none" :=
  ⟨busy_gate_contract.1 (some "sess") "gen" true,
   busy_gate_contract.2.1 ⟨baseState, [PendingOp.chat]⟩
     ⟨chatSettle baseState (ChatOutcome.success "Hi"), []⟩
     (Event.settleChat (ChatOutcome.success "Hi")) (by decide) (by decide),
   busy_gate_contract.2.2 (some "sess") "gen" true conf0 Relation.ReflTransGen.refl rfl⟩

/-- Counterexample to claim C1 as stated.  `dispatchEvent` runs the async
submit listener only up to its first `await` and discards its promise, so
`sendAudioForTranscription`'s `finally` (script.js line 84) hides the
indicator right after the chained chat fetch starts: in the reachable
configuration `transcribeWaitConf`, settling the transcribe fetch with
transcription `"Hello"` leaves the chained chat fetch outstanding with the
busy signal already `"none"` — it does flicker off between the two settles. -/
theorem chain_busy_flicker_counterexample : ¬ busyReflectsChainClaim := by
  intro hclaim
  have hreach : Reachable (initConf (some "sess") "gen" true) transcribeWaitConf :=
    reachable_runEvents recordTrace _ _ (by decide)
  have hstep : step transcribeWaitConf
      (Event.settleTranscribe (TranscribeOutcome.success "Hello")) = some chainedChatConf := by
    decide
  have hflex := hclaim (some "sess") "gen" true transcribeWaitConf "Hello" chainedChatConf
    hreach (by decide) hstep
  exact absurd hflex (by decide)

/-- Claim C1 amended: when a transcribe operation settles successfully, the
busy signal is cleared at that settle — even though, for a non-empty
transcription, the chained chat operation is still outstanding.  The busy
signal therefore does not reflect the combined duration: it is hidden for
the whole chained chat round trip. -/
theorem transcribe_settle_clears_busy (c c' : Conf) (t : String)
    (hs : step c (Event.settleTranscribe (TranscribeOutcome.success t)) = some c') :
    c'.st.loadingDisplay = "none" ∧ (jsTrim t ≠ "" → PendingOp.chat ∈ c'.pending) := by
  simp only [step] at hs
  split at hs
  next x rest heq =>
    injection hs with hs'
    subst hs'
    refine ⟨transcribeSettle_loading _ _, fun ht => ?_⟩
    have hiss : (transcribeSettle c.st (TranscribeOutcome.success t)).2 = true := by
      simp [transcribeSettle, chatSubmitStart, ht]
    rw [if_pos hiss]
    simp
  next => exact Option.noConfusion hs

/-- Witness for the amended C1, at the concrete chained-transcription
configuration. -/
theorem transcribe_settle_clears_busy_witness :
    chainedChatConf.st.loadingDisplay = "none" ∧
    (jsTrim "Hello" ≠ "" → PendingOp.chat ∈ chainedChatConf.pending) :=
  transcribe_settle_clears_busy transcribeWaitConf chainedChatConf "Hello" (by decide)

/-- Counterexample to claim C3 as stated.  `startRecording` (script.js lines
32-51) checks only for platform support — it never consults `isRecording` or
an existing recorder — so two microphone clicks issued while the first
permission request is still pending (when `isRecording` is still `false`,
defeating the caller-side toggle) request the device twice; once both grants
resolve, `twoRecorderConf` is reached, with two simultaneously capturing
recorders. -/
theorem reentrant_start_counterexample : ¬ reentrantStartGuardClaim := by
  intro hclaim
  have hreach : Reachable (initConf (some "sess") "gen" true) twoRecorderConf :=
    reachable_runEvents [.micClick, .micClick, .grantPermission, .grantPermission] _ _
      (by decide)
  have hle := hclaim.1 (some "sess") "gen" true twoRecorderConf hreach
  exact absurd hle (by decide)

/-- Claim C3 amended: `stopRecording` while idle (no recorder, or the
current recorder already inactive) is a complete no-op that raises no error;
but `startRecording` has no reentrancy guard of its own — the caller-side
toggle is the only protection, and a second `start()` issued while a prior
`start()` is still awaiting the permission grant leads to a reachable
configuration with two simultaneously capturing recorders. -/
theorem start_unguarded_stop_idempotent :
    (∀ st : ClientState,
        (∀ i, st.current = some i → st.recorders.getD i false = false) →
        stopRecordingFn st = (st, false)) ∧
    (∃ (stored : Option String) (g : String) (ms : Bool) (c : Conf),
        Reachable (initConf stored g ms) c ∧ c.st.recorders.count true = 2) := by
  constructor
  · intro st hidle
    cases hc : st.current with
    | none => simp [stopRecordingFn, hc]
    | some i =>
        simp [stopRecordingFn, hc]
        simpa [List.getD_eq_getElem?_getD] using hidle i hc
  · exact ⟨some "sess", "gen", true, twoRecorderConf,
      reachable_runEvents [.micClick, .micClick, .grantPermission, .grantPermission] _ _
        (by decide),
      by decide⟩

/-- Witness for the amended C3: on the freshly loaded page (no recorder
exists yet) `stopRecording` leaves the state untouched and queues nothing. -/
theorem start_unguarded_stop_idempotent_witness :
    stopRecordingFn baseState = (baseState, false) :=
  start_unguarded_stop_idempotent.1 baseState (fun _ h => Option.noConfusion h)

/-- Counterexample to claim C4 as stated: script.js wraps neither
`localStorage.getItem` nor `localStorage.setItem` in a try/catch, so when
the storage read throws (`SecurityError`), initialization propagates the
exception instead of producing any session token. -/
theorem storage_failure_counterexample : ¬ storageFailureDegradesClaim := by
  intro hclaim
  obtain ⟨tok, isNew, heq⟩ := hclaim (Except.error "SecurityError") "gen" (Except.ok ())
  exact Except.noConfusion heq

/-- Claim C4 amended: storage failures are not handled — a failing token
read or write propagates out of initialization (the page's handlers are
never attached), with no ephemeral in-memory fallback.  Only when storage
succeeds does initialization return the stored token unchanged, or generate
and persist a fresh one (with the new-session flag). -/
theorem storage_failure_propagates :
    (∀ (g e : String) (setR : Except String Unit),
        sessionInit (Except.error e) g setR = Except.error e) ∧
    (∀ g e : String, sessionInit (Except.ok none) g (Except.error e) = Except.error e) ∧
    (∀ (g s : String) (setR : Except String Unit), s ≠ "" →
        sessionInit (Except.ok (some s)) g setR = Except.ok (s, false)) ∧
    (∀ g : String, sessionInit (Except.ok none) g (Except.ok ()) = Except.ok (g, true)) := by
  refine ⟨fun g e setR => rfl, fun g e => rfl, ?_, fun g => rfl⟩
  intro g s setR hs
  simp [sessionInit, hs]

/-- Witness for the amended C4: a concrete stored token is returned
unchanged with the new-session flag off. -/
theorem storage_failure_propagates_witness :
    sessionInit (Except.ok (some "sess")) "gen" (Except.ok ()) = Except.ok ("sess", false) :=
  storage_failure_propagates.2.2.1 "gen" "sess" (Except.ok ()) (by decide)

/-- Claim C5: every `EmptyInput` case is a pure no-op and not an error —
submitting input that trims to empty leaves the configuration completely
unchanged (no message, no fetch); a recording stop whose `onstop` fires
with zero collected fragments only consumes the callback and issues no
transcribe fetch; a file-selection event with no file issues no upload
fetch and changes nothing but the (cleared) selection. -/
theorem empty_input_noop :
    (∀ c : Conf, jsTrim c.st.messageInput = "" → step c Event.submitForm = some c) ∧
    (∀ (c : Conf) (x : PendingOp) (rest : List PendingOp),
        takeFirst isOnstop c.pending = some (x, rest) → c.st.audioChunks = [] →
        step c Event.fireOnstop = some ⟨c.st, rest⟩) ∧
    (∀ c : Conf,
        step c (Event.fileChange none) = some ⟨{ c.st with fileValue := none }, c.pending⟩) := by
  refine ⟨?_, ?_, fun c => rfl⟩
  · intro c he
    simp [step, chatSubmitStart, he]
  · intro c x rest heq hempty
    simp only [step]
    rw [heq]
    simp [sendAudioStart, hempty]

/-- Witness for C5 at concrete configurations: empty input box, empty chunk
list, empty file selection. -/
theorem empty_input_noop_witness :
    step conf0 Event.submitForm = some conf0 ∧
    step ⟨baseState, [PendingOp.onstopEvent]⟩ Event.fireOnstop = some ⟨baseState, []⟩ ∧
    step conf0 (Event.fileChange none) = some ⟨{ baseState with fileValue := none }, []⟩ :=
  ⟨empty_input_noop.1 conf0 (by decide),
   empty_input_noop.2.1 ⟨baseState, [PendingOp.onstopEvent]⟩ PendingOp.onstopEvent []
     (by decide) (by decide),
   empty_input_noop.2.2 conf0⟩

/-- Claim C6: for a non-empty (after trimming) input, the submit handler's
synchronous prefix appends the trimmed user message to the transcript and
only then has the chat fetch outstanding (the message is in the transcript
while the call is still pending); a success settle `{response: r}` appends
exactly one assistant message with text `r`; and end to end,
`sendChat("Hello")` answered with `{response:"Hi!"}` yields the transcript
`[{user,"Hello"}, {assistant,"Hi!"}]` exactly (Scenario C). -/
theorem chat_success_appends :
    (∀ c : Conf, jsTrim c.st.messageInput ≠ "" →
        step c Event.submitForm =
          some ⟨(chatSubmitStart c.st).1, c.pending ++ [PendingOp.chat]⟩ ∧
        (chatSubmitStart c.st).1.transcript =
          c.st.transcript ++ [⟨jsTrim c.st.messageInput, Sender.user⟩]) ∧
    (∀ (c c' : Conf) (r : String),
        step c (Event.settleChat (ChatOutcome.success r)) = some c' →
        c'.st.transcript = c.st.transcript ++ [⟨r, Sender.ai⟩]) ∧
    (∃ cf : Conf,
        runEvents conf0 [Event.typeInput "Hello", Event.submitForm,
          Event.settleChat (ChatOutcome.success "Hi!")] = some cf ∧
        cf.st.transcript = [⟨"Hello", Sender.user⟩, ⟨"Hi!", Sender.ai⟩]) := by
  refine ⟨?_, ?_, ⟨_, rfl, by decide⟩⟩
  · intro c hne
    have hiss : (chatSubmitStart c.st).2 = true := by
      simp [chatSubmitStart, hne]
    constructor
    · simp [step, hiss]
    · simp [chatSubmitStart, hne]
  · intro c c' r hs
    simp only [step] at hs
    split at hs
    next x rest heq =>
      injection hs with hs'
      subst hs'
      simp [chatSettle, addMessageToChat]
    next => exact Option.noConfusion hs

/-- Witness for C6: a page with `"Hey"` typed in, submitted; and a concrete
chat fetch settling with `"Hi"`. -/
theorem chat_success_appends_witness :
    (step witnessChatConf Event.submitForm =
        some ⟨(chatSubmitStart witnessChatConf.st).1,
              witnessChatConf.pending ++ [PendingOp.chat]⟩ ∧
      (chatSubmitStart witnessChatConf.st).1.transcript =
        witnessChatConf.st.transcript ++
          [⟨jsTrim witnessChatConf.st.messageInput, Sender.user⟩]) ∧
    (⟨chatSettle baseState (ChatOutcome.success "Hi"), []⟩ : Conf).st.transcript =
      baseState.transcript ++ [⟨"Hi", Sender.ai⟩] :=
  ⟨chat_success_appends.1 witnessChatConf (by decide),
   chat_success_appends.2.1 ⟨baseState, [PendingOp.chat]⟩
     ⟨chatSettle baseState (ChatOutcome.success "Hi"), []⟩ "Hi" (by decide)⟩

/-- Claim C7: a failed chat call appends exactly one assistant message that
distinguishes the two failure kinds — a non-success status with a `detail`
body surfaces the detail verbatim (`Error: ` followed by the detail, which
contains the detail as a substring), while a call that could not complete
surfaces the available error message (the handler's generic fallback text
covers the detail-less case via `jsOr`); end to end, `sendChat("Hello")`
answered with a 500 and `{detail:"boom"}` yields
`[{user,"Hello"}, {assistant,"Error: boom"}]` (Scenario D). -/
theorem chat_failure_appends :
    (∀ (c c' : Conf) (d : String), d ≠ "" →
        step c (Event.settleChat (ChatOutcome.httpError (some d))) = some c' →
        c'.st.transcript = c.st.transcript ++ [⟨"Error: " ++ d, Sender.ai⟩] ∧
        ∃ pre suf : String, "Error: " ++ d = pre ++ d ++ suf) ∧
    (∀ (c c' : Conf) (m : String),
        step c (Event.settleChat (ChatOutcome.networkError m)) = some c' →
        c'.st.transcript = c.st.transcript ++ [⟨"Error: " ++ m, Sender.ai⟩]) ∧
    (∃ cf : Conf,
        runEvents conf0 [Event.typeInput "Hello", Event.submitForm,
          Event.settleChat (ChatOutcome.httpError (some "boom"))] = some cf ∧
        cf.st.transcript = [⟨"Hello", Sender.user⟩, ⟨"Error: boom", Sender.ai⟩]) := by
  refine ⟨?_, ?_, ⟨_, rfl, by decide⟩⟩
  · intro c c' d hd hs
    simp only [step] at hs
    split at hs
    next x rest heq =>
      injection hs with hs'
      subst hs'
      refine ⟨?_, "Error: ", "", by simp⟩
      simp [chatSettle, addMessageToChat, jsOr, hd]
    next => exact Option.noConfusion hs
  · intro c c' m hs
    simp only [step] at hs
    split at hs
    next x rest heq =>
      injection hs with hs'
      subst hs'
      simp [chatSettle, addMessageToChat]
    next => exact Option.noConfusion hs

/-- Witness for C7: concrete settles with `{detail:"boom"}` and with a
network error `"Failed to fetch"`. -/
theorem chat_failure_appends_witness :
    ((⟨chatSettle baseState (ChatOutcome.httpError (some "boom")), []⟩ : Conf).st.transcript =
        baseState.transcript ++ [⟨"Error: " ++ "boom", Sender.ai⟩] ∧
      ∃ pre suf : String, "Error: " ++ "boom" = pre ++ "boom" ++ suf) ∧
    (⟨chatSettle baseState (ChatOutcome.networkError "Failed to fetch"), []⟩ : Conf).st.transcript =
      baseState.transcript ++ [⟨"Error: " ++ "Failed to fetch", Sender.ai⟩] :=
  ⟨chat_failure_appends.1 ⟨baseState, [PendingOp.chat]⟩
     ⟨chatSettle baseState (ChatOutcome.httpError (some "boom")), []⟩ "boom"
     (by decide) (by decide),
   chat_failure_appends.2.1 ⟨baseState, [PendingOp.chat]⟩
     ⟨chatSettle baseState (ChatOutcome.networkError "Failed to fetch"), []⟩
     "Failed to fetch" (by decide)⟩

/-- Claim C8: a failed synthesis leaves the transcript unchanged — the
failure is surfaced only as an alert — and a successful synthesis also
appends no message, merely records the started playback; in both cases the
busy signal is released by the settle of the network round trip itself (the
same atomic step in which playback merely starts; no playback-completion
event exists, so release never waits for it). -/
theorem synth_frame_and_release :
    (∀ c c' : Conf, step c (Event.settleSynth SynthOutcome.failure) = some c' →
        c'.st.transcript = c.st.transcript ∧
        c'.st.alerts = c.st.alerts ++ ["Could not play audio."] ∧
        c'.st.loadingDisplay = "none") ∧
    (∀ (c c' : Conf) (url : String),
        step c (Event.settleSynth (SynthOutcome.success url)) = some c' →
        c'.st.transcript = c.st.transcript ∧
        c'.st.playedAudio = c.st.playedAudio ++ [url] ∧
        c'.st.loadingDisplay = "none") := by
  constructor
  · intro c c' hs
    simp only [step] at hs
    split at hs
    next x rest heq =>
      injection hs with hs'
      subst hs'
      simp [synthSettle]
    next => exact Option.noConfusion hs
  · intro c c' url hs
    simp only [step] at hs
    split at hs
    next x rest heq =>
      injection hs with hs'
      subst hs'
      simp [synthSettle]
    next => exact Option.noConfusion hs

/-- Witness for C8: concrete synthesize settles (failure, then success with
a concrete audio URL) from a configuration with one synth fetch in flight. -/
theorem synth_frame_and_release_witness :
    ((⟨synthSettle baseState SynthOutcome.failure, []⟩ : Conf).st.transcript =
        baseState.transcript ∧
      (⟨synthSettle baseState SynthOutcome.failure, []⟩ : Conf).st.alerts =
        baseState.alerts ++ ["Could not play audio."] ∧
      (⟨synthSettle baseState SynthOutcome.failure, []⟩ : Conf).st.loadingDisplay = "none") ∧
    ((⟨synthSettle baseState (SynthOutcome.success "/audio/x.wav"), []⟩ : Conf).st.transcript =
        baseState.transcript ∧
      (⟨synthSettle baseState (SynthOutcome.success "/audio/x.wav"), []⟩ : Conf).st.playedAudio =
        baseState.playedAudio ++ ["/audio/x.wav"] ∧
      (⟨synthSettle baseState (SynthOutcome.success "/audio/x.wav"), []⟩ : Conf).st.loadingDisplay =
        "none") :=
  ⟨synth_frame_and_release.1 ⟨baseState, [PendingOp.synth]⟩
     ⟨synthSettle baseState SynthOutcome.failure, []⟩ (by decide),
   synth_frame_and_release.2 ⟨baseState, [PendingOp.synth]⟩
     ⟨synthSettle baseState (SynthOutcome.success "/audio/x.wav"), []⟩ "/audio/x.wav"
     (by decide)⟩

/-- Claim C9: selecting a file starts an upload without touching the
transcript; a success settle appends exactly one assistant message whose
text names the file; a failure settle appends exactly one assistant message
with the server-provided detail (generic text when absent, via `jsOr`) or
the transport error message; and on every outcome the file-selection
control is reset to empty. -/
theorem upload_messages_and_reset :
    (∀ (c : Conf) (name : String),
        step c (Event.fileChange (some name)) =
          some ⟨{ c.st with fileValue := some name, loadingDisplay := "flex" },
                c.pending ++ [PendingOp.upload name]⟩) ∧
    (∀ (c c' : Conf) (name : String) (rest : List PendingOp),
        takeFirst isUploadPending c.pending = some (PendingOp.upload name, rest) →
        step c (Event.settleUpload UploadOutcome.okIndexed) = some c' →
        c'.st.transcript = c.st.transcript ++ [⟨uploadSuccessText name, Sender.ai⟩] ∧
        (∃ pre suf : String, uploadSuccessText name = pre ++ name ++ suf) ∧
        c'.st.fileValue = none ∧ c'.st.loadingDisplay = "none") ∧
    (∀ (c c' : Conf) (name : String) (rest : List PendingOp) (d : Option String),
        takeFirst isUploadPending c.pending = some (PendingOp.upload name, rest) →
        step c (Event.settleUpload (UploadOutcome.httpError d)) = some c' →
        c'.st.transcript =
          c.st.transcript ++ [⟨"Error: " ++ jsOr d "Upload failed", Sender.ai⟩] ∧
        c'.st.fileValue = none ∧ c'.st.loadingDisplay = "none") ∧
    (∀ (c c' : Conf) (name : String) (rest : List PendingOp) (m : String),
        takeFirst isUploadPending c.pending = some (PendingOp.upload name, rest) →
        step c (Event.settleUpload (UploadOutcome.networkError m)) = some c' →
        c'.st.transcript = c.st.transcript ++ [⟨"Error: " ++ m, Sender.ai⟩] ∧
        c'.st.fileValue = none ∧ c'.st.loadingDisplay = "none") := by
  refine ⟨fun c name => rfl, ?_, ?_, ?_⟩
  · intro c c' name rest heq hs
    simp only [step] at hs
    rw [heq] at hs
    injection hs with hs'
    subst hs'
    exact ⟨by simp [uploadSettle, addMessageToChat],
      ⟨"Successfully uploaded and indexed \"",
       "\". You can now ask questions about it.", rfl⟩, rfl, rfl⟩
  · intro c c' name rest d heq hs
    simp only [step] at hs
    rw [heq] at hs
    injection hs with hs'
    subst hs'
    exact ⟨by simp [uploadSettle, addMessageToChat], rfl, rfl⟩
  · intro c c' name rest m heq hs
    simp only [step] at hs
    rw [heq] at hs
    injection hs with hs'
    subst hs'
    exact ⟨by simp [uploadSettle, addMessageToChat], rfl, rfl⟩

/-- Witness for C9: selecting `"notes.pdf"` and the three concrete settle
outcomes for it. -/
theorem upload_messages_and_reset_witness :
    step conf0 (Event.fileChange (some "notes.pdf")) =
      some ⟨{ baseState with fileValue := some "notes.pdf", loadingDisplay := "flex" },
            [PendingOp.upload "notes.pdf"]⟩ ∧
    ((⟨uploadSettle baseState "notes.pdf" UploadOutcome.okIndexed, []⟩ : Conf).st.transcript =
        baseState.transcript ++ [⟨uploadSuccessText "notes.pdf", Sender.ai⟩] ∧
      (∃ pre suf : String, uploadSuccessText "notes.pdf" = pre ++ "notes.pdf" ++ suf) ∧
      (⟨uploadSettle baseState "notes.pdf" UploadOutcome.okIndexed, []⟩ : Conf).st.fileValue =
        none ∧
      (⟨uploadSettle baseState "notes.pdf" UploadOutcome.okIndexed, []⟩ : Conf).st.loadingDisplay =
        "none") ∧
    ((⟨uploadSettle baseState "notes.pdf" (UploadOutcome.httpError none), []⟩ : Conf).st.transcript =
        baseState.transcript ++ [⟨"Error: " ++ jsOr none "Upload failed", Sender.ai⟩] ∧
      (⟨uploadSettle baseState "notes.pdf" (UploadOutcome.httpError none), []⟩ : Conf).st.fileValue =
        none ∧
      (⟨uploadSettle baseState "notes.pdf" (UploadOutcome.httpError none), []⟩ : Conf).st.loadingDisplay =
        "none") :=
  ⟨upload_messages_and_reset.1 conf0 "notes.pdf",
   upload_messages_and_reset.2.1 ⟨baseState, [PendingOp.upload "notes.pdf"]⟩
     ⟨uploadSettle baseState "notes.pdf" UploadOutcome.okIndexed, []⟩ "notes.pdf" []
     (by decide) (by decide),
   upload_messages_and_reset.2.2.1 ⟨baseState, [PendingOp.upload "notes.pdf"]⟩
     ⟨uploadSettle baseState "notes.pdf" (UploadOutcome.httpError none), []⟩ "notes.pdf" []
     none (by decide) (by decide)⟩

/-- Claim C10: a transcribe operation that succeeds with a transcription
trimming to empty degenerates to a no-op chained submission — the
transcription lands in the input box, the indicator is hidden, no user
message is appended and no chat fetch is issued (the chained path inherits
`sendChat`'s empty-input rejection). -/
theorem empty_transcription_chain_noop :
    ∀ (c : Conf) (t : String) (x : PendingOp) (rest : List PendingOp),
      takeFirst isTranscribePending c.pending = some (x, rest) → jsTrim t = "" →
      step c (Event.settleTranscribe (TranscribeOutcome.success t)) =
        some ⟨{ c.st with messageInput := t, loadingDisplay := "none" }, rest⟩ := by
  intro c t x rest heq ht
  simp only [step]
  rw [heq]
  simp [transcribeSettle, chatSubmitStart, ht]

/-- Witness for C10: a whitespace-only transcription settling against a
concrete in-flight transcribe fetch. -/
theorem empty_transcription_chain_noop_witness :
    step ⟨baseState, [PendingOp.transcribe]⟩
        (Event.settleTranscribe (TranscribeOutcome.success " ")) =
      some ⟨{ baseState with messageInput := " ", loadingDisplay := "none" }, []⟩ :=
  empty_transcription_chain_noop ⟨baseState, [PendingOp.transcribe]⟩ " "
    PendingOp.transcribe [] (by decide) (by decide)

end Victus
